import Mathlib

/-!
# Verification of the JWT MySQL notes backend (`src/lib/service/main.py`)

Shallow embedding of the service's data model and request handlers.
Time is modelled as epoch seconds (`Nat`); the database session is modelled
as explicit state (a list of user rows and a list of note rows plus the
auto-increment counter); raising `HTTPException(status, detail)` is modelled
by returning a `failure` value carrying the same status code and detail.
-/

/-- An `HTTPException(status_code, detail)` raised by a handler. -/
structure ApiError where
  status_code : Nat
  detail : String
deriving DecidableEq, Repr

/-- Outcome of an HTTP request handler: either the route's success status code
with a response body, or an error status with a detail message. -/
inductive HttpResult (α : Type) where
  | success (statusCode : Nat) (body : α)
  | failure (statusCode : Nat) (detail : String)
deriving DecidableEq, Repr

/-- `ALGORITHM = "HS256"` from the source configuration block. -/
def ALGORITHM : String := "HS256"

/-- `ACCESS_TOKEN_EXPIRE_MINUTES = 60` from the source configuration block. -/
def ACCESS_TOKEN_EXPIRE_MINUTES : Nat := 60

/-! ## Credential hasher

The source delegates to `passlib`'s `CryptContext(schemes=["argon2"])`.
Modelled from the spec: `hash` produces a salted, irreversible hash (the salt
is an extra input here, standing for the randomness passlib draws), and
`verify` recomputes the digest for the stored salt and compares, returning a
`Bool` and never raising on mismatch.  The argon2 digest itself is external
library code, idealized here as a collision-free keyed encoding of the
password and salt. -/

/-- Idealized argon2 digest of a password under a salt (collision-free). -/
def argon2digest (password : String) (salt : Nat) : String × Nat :=
  (password, salt)

/-- A stored password hash: the salt together with the argon2 digest,
as encoded into the single hash string by passlib. -/
structure PasswordHash where
  salt : Nat
  digest : String × Nat
deriving DecidableEq, Repr

/-- `hash_password(password)` from the source (`pwd_context.hash`). -/
def hash_password (salt : Nat) (password : String) : PasswordHash :=
  { salt := salt, digest := argon2digest password salt }

/-- `verify_password(password, password_hash)` from the source
(`pwd_context.verify`): recompute under the stored salt and compare. -/
def verify_password (password : String) (password_hash : PasswordHash) : Bool :=
  argon2digest password password_hash.salt = password_hash.digest

/-! ## Token service (python-jose `jwt.encode` / `jwt.decode`)

A JWT payload carries the claims the source writes: `sub` (optional, since a
decoded third-party token may lack it) and `exp` (epoch seconds).  A token is
either malformed (not a valid compact JWS at all) or a payload together with
the HMAC signature; the symmetric signature is idealized as the pair of the
signing secret and the signed payload, so that signature verification under
`secret` succeeds exactly when the token was signed with `secret` over its own
payload. -/

/-- Decoded JWT claim set as used by the source: `sub` and `exp`. -/
structure Payload where
  sub : Option String
  exp : Nat
deriving DecidableEq, Repr

/-- A bearer token string, as seen by `jwt.decode`. -/
inductive Token where
  | malformed (raw : String)
  | signed (payload : Payload) (sigSecret : String) (sigPayload : Payload)
deriving DecidableEq, Repr

/-- Errors raised by `jose.jwt.decode`; all are subclasses of `JWTError`. -/
inductive JWTError where
  | malformedToken
  | invalidSignature
  | expiredSignature
deriving DecidableEq, Repr

/-- `jose.jwt.encode(payload, secret, algorithm)`: a well-signed token. -/
def jwtEncode (payload : Payload) (secret : String) : Token :=
  .signed payload secret payload

/-- `jose.jwt.decode(token, secret, algorithms)` at time `now`: rejects
malformed tokens, signatures that do not verify under `secret`, and tokens
whose `exp` has passed (`exp < now`); otherwise returns the claim set. -/
def jwtDecode (token : Token) (secret : String) (now : Nat) : Except JWTError Payload :=
  match token with
  | .malformed _ => .error .malformedToken
  | .signed p s q =>
      if s = secret ∧ q = p then
        if p.exp < now then .error .expiredSignature
        else .ok p
      else .error .invalidSignature

/-- `create_access_token(subject_email)` from the source: payload
`{"sub": subject_email, "exp": now + 60 minutes}` signed with the secret.
`now` is the call's `datetime.utcnow()` in epoch seconds. -/
def create_access_token (secret : String) (now : Nat) (subject_email : String) : Token :=
  jwtEncode { sub := some subject_email, exp := now + ACCESS_TOKEN_EXPIRE_MINUTES * 60 } secret

/-- `decode_token(token)` from the source: any `JWTError` becomes HTTP 401
"Invalid or expired token"; a missing or falsy (empty) `sub` claim becomes
HTTP 401 "Invalid token"; otherwise the subject email is returned. -/
def decode_token (secret : String) (now : Nat) (token : Token) : Except ApiError String :=
  match jwtDecode token secret now with
  | .error _ => .error ⟨401, "Invalid or expired token"⟩
  | .ok payload =>
      match payload.sub with
      | none => .error ⟨401, "Invalid token"⟩
      | some email => if email = "" then .error ⟨401, "Invalid token"⟩ else .ok email

/-! ## Data model: `users` and `notes` tables -/

/-- A row of the `users` table. -/
structure UserRec where
  id : Nat
  email : String
  password_hash : PasswordHash
  created_at : Nat
deriving DecidableEq, Repr

/-- A row of the `notes` table. -/
structure NoteRec where
  id : Nat
  owner_email : String
  title : String
  content : String
  created_at : Nat
deriving DecidableEq, Repr

/-- The `notes` table together with its auto-increment counter: every stored
id is below `nextId`, and ids are assigned in increasing order. -/
structure NotesDB where
  rows : List NoteRec
  nextId : Nat
deriving DecidableEq, Repr

/-! ## Request schemas (pydantic models) -/

/-- `RegisterRequest`: `email: EmailStr`, `password: str = Field(min_length=6,
max_length=100)`.  Validation predicate over already-typed strings; `EmailStr`
is abstracted to the requirement recorded in `isEmailStr`. -/
def isEmailStr (email : String) : Bool :=
  email ≠ "" && email.contains '@'

/-- Pydantic validation of `RegisterRequest`. -/
def registerRequestValid (email password : String) : Bool :=
  isEmailStr email && decide (6 ≤ password.length) && decide (password.length ≤ 100)

/-- `NoteCreate`: `title: str`, `content: str` — the request body for note
creation and note update.  It has exactly these two fields; there is no owner
field and no length constraint on either field. -/
structure NoteCreate where
  title : String
  content : String
deriving DecidableEq, Repr

/-- Pydantic validation of `NoteCreate` over already-typed strings: the source
declares both fields as plain `str` with no `Field` constraints, so every
payload of two strings is accepted. -/
def noteCreateValid (_payload : NoteCreate) : Bool :=
  true

/-- The length bound of the `notes.content` column, `String(2000)`. -/
def CONTENT_COLUMN_BOUND : Nat := 2000

/-- `TokenResponse`: the login success body. -/
structure TokenResponse where
  access_token : Token
  token_type : String
deriving DecidableEq, Repr

/-! ## Auth endpoints -/

/-- `register` (`POST /register`, success status 201):
conflict check by email lookup, then insert the new user with the hashed
password.  `salt` is the randomness passlib draws for this call, `nextId` the
auto-increment id MySQL assigns, `now` the row's `created_at`. -/
def register (email password : String) (salt nextId now : Nat)
    (db : List UserRec) : List UserRec × HttpResult String :=
  match db.find? (fun u => u.email = email) with
  | some _ => (db, .failure 409 "Email already registered")
  | none =>
      let user : UserRec :=
        { id := nextId, email := email
          password_hash := hash_password salt password, created_at := now }
      (db ++ [user], .success 201 "registered")

/-- `login` (`POST /login`, success status 200): look up the user by email;
if absent, or present with a non-verifying password, answer 401
"Invalid email or password"; otherwise issue an access token. -/
def login (email password : String) (secret : String) (now : Nat)
    (db : List UserRec) : HttpResult TokenResponse :=
  match db.find? (fun u => u.email = email) with
  | none => .failure 401 "Invalid email or password"
  | some user =>
      if verify_password password user.password_hash then
        .success 200 { access_token := create_access_token secret now user.email
                       token_type := "bearer" }
      else
        .failure 401 "Invalid email or password"

/-- `require_user`: decode the bearer token, then resolve the subject email in
the `users` table; a valid token whose subject is unknown is 401
"User not found". -/
def require_user (secret : String) (now : Nat) (token : Token)
    (db : List UserRec) : Except ApiError UserRec :=
  match decode_token secret now token with
  | .error e => .error e
  | .ok email =>
      match db.find? (fun u => u.email = email) with
      | none => .error ⟨401, "User not found"⟩
      | some user => .ok user

/-! ## Note endpoints (protected CRUD)

Each handler below receives `userEmail`, the email of the `User` record that
`require_user` resolved from the bearer token, exactly as the handlers receive
`user: User = Depends(require_user)` and use only `user.email`. -/

/-- The SQLAlchemy row filter of the update/delete handlers:
`Note.id == note_id, Note.owner_email == user.email`. -/
def ownedNoteFilter (note_id : Nat) (userEmail : String) (n : NoteRec) : Bool :=
  n.id = note_id && n.owner_email = userEmail

/-- In-place mutation of the first row matched by `p`, as the ORM does when
the object returned by `.first()` is mutated and committed. -/
def updateFirst (p : NoteRec → Bool) (f : NoteRec → NoteRec) : List NoteRec → List NoteRec
  | [] => []
  | n :: rest => if p n then f n :: rest else n :: updateFirst p f rest

/-- `list_notes` (`GET /notes`, success status 200):
`db.query(Note).filter(Note.owner_email == user.email).order_by(Note.id.desc()).all()`. -/
def list_notes (userEmail : String) (db : NotesDB) : List NoteRec :=
  (db.rows.filter (fun n => n.owner_email = userEmail)).mergeSort
    (fun a b => b.id ≤ a.id)

/-- `create_note` (`POST /notes`, success status 201): insert a row whose
owner is the authenticated user's email and whose title/content come from the
payload; MySQL assigns the next auto-increment id; returns the refreshed row. -/
def create_note (payload : NoteCreate) (userEmail : String) (now : Nat)
    (db : NotesDB) : NotesDB × NoteRec :=
  let note : NoteRec :=
    { id := db.nextId, owner_email := userEmail
      title := payload.title, content := payload.content, created_at := now }
  (⟨db.rows ++ [note], db.nextId + 1⟩, note)

/-- `update_note` (`PUT /notes/{note_id}`, success status 200): find the row
with this id owned by the caller; 404 "Note not found" if there is none;
otherwise overwrite its title and content and return the refreshed row. -/
def update_note (note_id : Nat) (payload : NoteCreate) (userEmail : String)
    (db : NotesDB) : NotesDB × HttpResult NoteRec :=
  match db.rows.find? (ownedNoteFilter note_id userEmail) with
  | none => (db, .failure 404 "Note not found")
  | some n =>
      let n' : NoteRec := { n with title := payload.title, content := payload.content }
      (⟨updateFirst (ownedNoteFilter note_id userEmail)
          (fun m => { m with title := payload.title, content := payload.content })
          db.rows, db.nextId⟩,
       .success 200 n')

/-- `delete_note` (`DELETE /notes/{note_id}`, success status 200): find the
row with this id owned by the caller; 404 "Note not found" if there is none;
otherwise remove it and answer `{"message": "deleted"}`. -/
def delete_note (note_id : Nat) (userEmail : String)
    (db : NotesDB) : NotesDB × HttpResult String :=
  match db.rows.find? (ownedNoteFilter note_id userEmail) with
  | none => (db, .failure 404 "Note not found")
  | some _ =>
      (⟨db.rows.eraseP (ownedNoteFilter note_id userEmail), db.nextId⟩,
       .success 200 "deleted")

/-- A sequence of note creations by arbitrary owners: each request is an
owner email (as resolved by `require_user`), a payload and a timestamp. -/
def runCreates (reqs : List (String × NoteCreate × Nat)) (db : NotesDB) : NotesDB :=
  reqs.foldl (fun d r => (create_note r.2.1 r.1 r.2.2 d).1) db

/-! ## Theorems -/

/-- **C6**: for every password `p`, `verify_password p (hash_password p)` is
true, and for every `w ≠ p`, `verify_password w (hash_password p)` is false.
`verify_password` is a total function into `Bool`, so it never raises on a
mismatch: it only returns `false`. -/
theorem verify_password_roundtrip (p w : String) (salt : Nat) (hne : w ≠ p) :
    verify_password p (hash_password salt p) = true ∧
    verify_password w (hash_password salt p) = false := by
  refine ⟨by simp [verify_password, hash_password], ?_⟩
  simp only [verify_password, hash_password, argon2digest, decide_eq_false_iff_not]
  intro hcontra
  exact hne (congrArg Prod.fst hcontra)

/-- Witness for C6 at `p = "secret1"`, `w = "wrong"`, `salt = 0`. -/
theorem verify_password_roundtrip_witness :
    verify_password "secret1" (hash_password 0 "secret1") = true ∧
    verify_password "wrong" (hash_password 0 "secret1") = false :=
  verify_password_roundtrip "secret1" "wrong" 0 (by decide)

/-- **C3**: a token issued for a (nonempty) subject email round-trips through
verification as long as verification happens no later than the expiry,
issue time + 60 minutes: `decode_token (create_access_token email) = email`. -/
theorem token_roundtrip (secret email : String) (t tver : Nat)
    (hemail : email ≠ "")
    (hfresh : tver ≤ t + ACCESS_TOKEN_EXPIRE_MINUTES * 60) :
    decode_token secret tver (create_access_token secret t email) = .ok email := by
  have hexp : ¬ (t + ACCESS_TOKEN_EXPIRE_MINUTES * 60 < tver) := by
    simp only [ACCESS_TOKEN_EXPIRE_MINUTES] at hfresh ⊢
    omega
  simp [decode_token, create_access_token, jwtEncode, jwtDecode, hexp, hemail]

/-- Witness for C3 at `secret = "s"`, `email = "a@x.com"`, issue time 0,
verification time 100. -/
theorem token_roundtrip_witness :
    decode_token "s" 100 (create_access_token "s" 0 "a@x.com") = .ok "a@x.com" :=
  token_roundtrip "s" "a@x.com" 0 100 (by decide) (by decide)

/-- **C5**: `decode_token` answers 401 "Invalid or expired token" on every
malformed token, every token whose signature does not verify under the
configured secret, and every token whose expiry has passed; in particular any
token issued by `create_access_token` is rejected when checked strictly after
issue time + 60 minutes. -/
theorem decode_token_rejects_invalid :
    (∀ (secret : String) (now : Nat) (token : Token),
      ((∃ raw, token = .malformed raw) ∨
       (∃ p s q, token = .signed p s q ∧ ¬(s = secret ∧ q = p)) ∨
       (∃ p s q, token = .signed p s q ∧ s = secret ∧ q = p ∧ p.exp < now)) →
      decode_token secret now token = .error ⟨401, "Invalid or expired token"⟩) ∧
    (∀ (secret email : String) (t now : Nat),
      t + ACCESS_TOKEN_EXPIRE_MINUTES * 60 < now →
      decode_token secret now (create_access_token secret t email)
        = .error ⟨401, "Invalid or expired token"⟩) := by
  constructor
  · rintro secret now token (⟨raw, rfl⟩ | ⟨p, s, q, rfl, hsig⟩ | ⟨p, s, q, rfl, rfl, rfl, hexp⟩)
    · rfl
    · simp [decode_token, jwtDecode, hsig]
    · simp [decode_token, jwtDecode, hexp]
  · intro secret email t now hlate
    simp [decode_token, create_access_token, jwtEncode, jwtDecode, hlate]

/-- Witness for C5: a token with a wrong signing secret is rejected, and a
token issued at time 0 and checked at time 3601 (past the 60-minute expiry)
is rejected. -/
theorem decode_token_rejects_invalid_witness :
    decode_token "s" 0 (.signed ⟨some "a@x.com", 100⟩ "other" ⟨some "a@x.com", 100⟩)
      = .error ⟨401, "Invalid or expired token"⟩ ∧
    decode_token "s" 3601 (create_access_token "s" 0 "a@x.com")
      = .error ⟨401, "Invalid or expired token"⟩ :=
  ⟨decode_token_rejects_invalid.1 "s" 0 _
      (Or.inr (Or.inl ⟨_, _, _, rfl, by decide⟩)),
   decode_token_rejects_invalid.2 "s" "a@x.com" 0 3601 (by decide)⟩

/-- **C7**: a login whose email matches no registered user and a login whose
email matches a user but whose password does not verify produce the same
401 "Invalid email or password" response: the two failure causes are
indistinguishable from the response. -/
theorem login_failures_indistinguishable
    (email1 pw1 secret1 : String) (now1 : Nat) (db1 : List UserRec)
    (email2 pw2 secret2 : String) (now2 : Nat) (db2 : List UserRec) (u : UserRec)
    (h1 : db1.find? (fun v => v.email = email1) = none)
    (h2 : db2.find? (fun v => v.email = email2) = some u)
    (h3 : verify_password pw2 u.password_hash = false) :
    login email1 pw1 secret1 now1 db1 = .failure 401 "Invalid email or password" ∧
    login email2 pw2 secret2 now2 db2 = .failure 401 "Invalid email or password" ∧
    login email1 pw1 secret1 now1 db1 = login email2 pw2 secret2 now2 db2 := by
  refine ⟨?_, ?_, ?_⟩ <;> simp [login, h1, h2, h3]

/-- Witness for C7: a store holding only `a@x.com`; logging in as the unknown
`b@x.com` and logging in as `a@x.com` with a wrong password. -/
theorem login_failures_indistinguishable_witness :
    login "b@x.com" "whatever" "s" 5 [⟨1, "a@x.com", hash_password 0 "secret1", 0⟩]
      = .failure 401 "Invalid email or password" ∧
    login "a@x.com" "wrong" "s" 5 [⟨1, "a@x.com", hash_password 0 "secret1", 0⟩]
      = .failure 401 "Invalid email or password" ∧
    login "b@x.com" "whatever" "s" 5 [⟨1, "a@x.com", hash_password 0 "secret1", 0⟩]
      = login "a@x.com" "wrong" "s" 5 [⟨1, "a@x.com", hash_password 0 "secret1", 0⟩] :=
  login_failures_indistinguishable "b@x.com" "whatever" "s" 5 _
    "a@x.com" "wrong" "s" 5 _ ⟨1, "a@x.com", hash_password 0 "secret1", 0⟩
    (by decide) (by decide) (by decide)

/-- **C2**: when no user with `email` exists, registration succeeds with 201
"registered" and appends exactly the new user record; a second registration
with the same email (any password, salt, id, time) answers 409
"Email already registered", leaves the store unchanged, and the stored record
for `email` is still the first user, email and password hash intact. -/
theorem register_email_unique (email pw1 pw2 : String)
    (salt1 id1 now1 salt2 id2 now2 : Nat) (db : List UserRec)
    (hfree : db.find? (fun u => u.email = email) = none) :
    register email pw1 salt1 id1 now1 db
      = (db ++ [(⟨id1, email, hash_password salt1 pw1, now1⟩ : UserRec)],
         .success 201 "registered") ∧
    register email pw2 salt2 id2 now2
        (db ++ [(⟨id1, email, hash_password salt1 pw1, now1⟩ : UserRec)])
      = (db ++ [(⟨id1, email, hash_password salt1 pw1, now1⟩ : UserRec)],
         .failure 409 "Email already registered") ∧
    (db ++ [(⟨id1, email, hash_password salt1 pw1, now1⟩ : UserRec)]).find?
        (fun u => u.email = email)
      = some ⟨id1, email, hash_password salt1 pw1, now1⟩ := by
  have hfound : (db ++ [(⟨id1, email, hash_password salt1 pw1, now1⟩ : UserRec)]).find?
      (fun u => u.email = email)
      = some ⟨id1, email, hash_password salt1 pw1, now1⟩ := by
    rw [List.find?_append, hfree]
    simp
  exact ⟨by simp [register, hfree], by simp [register, hfound], hfound⟩

/-- Witness for C2: registering `a@x.com` into the empty store, then
registering `a@x.com` again with a different password. -/
theorem register_email_unique_witness :
    register "a@x.com" "secret1" 0 1 10 []
      = ([⟨1, "a@x.com", hash_password 0 "secret1", 10⟩], .success 201 "registered") ∧
    register "a@x.com" "other99" 7 2 20 [⟨1, "a@x.com", hash_password 0 "secret1", 10⟩]
      = ([⟨1, "a@x.com", hash_password 0 "secret1", 10⟩],
         .failure 409 "Email already registered") ∧
    [(⟨1, "a@x.com", hash_password 0 "secret1", 10⟩ : UserRec)].find?
        (fun u => u.email = "a@x.com")
      = some ⟨1, "a@x.com", hash_password 0 "secret1", 10⟩ :=
  register_email_unique "a@x.com" "secret1" "other99" 0 1 10 7 2 20 [] (by decide)

/-- **C1**: when no row both has id `note_id` and is owned by `userB` —
covering both "no note with that id exists" and "it exists but belongs to a
different user" — `update_note` and `delete_note` each answer the one
404 "Note not found" outcome and leave the store exactly as it was, so the
two cases are not distinguishable from the response. -/
theorem update_delete_notfound_conflation (note_id : Nat) (userB : String)
    (payload : NoteCreate) (db : NotesDB)
    (h : ∀ n ∈ db.rows, n.id = note_id → n.owner_email ≠ userB) :
    update_note note_id payload userB db = (db, .failure 404 "Note not found") ∧
    delete_note note_id userB db = (db, .failure 404 "Note not found") := by
  have hnone : db.rows.find? (ownedNoteFilter note_id userB) = none := by
    rw [List.find?_eq_none]
    intro n hn
    simp only [ownedNoteFilter, Bool.and_eq_true, decide_eq_true_eq, not_and]
    intro hid
    simpa using h n hn hid
  exact ⟨by simp [update_note, hnone], by simp [delete_note, hnone]⟩

/-- Witness for C1: the store holds note 1 owned by `a@x.com`; user
`b@x.com` attempts update and delete of note 1 (exists, not owned) — both
404 and the store is untouched. -/
theorem update_delete_notfound_conflation_witness :
    update_note 1 ⟨"t2", "c2"⟩ "b@x.com" ⟨[⟨1, "a@x.com", "t", "c", 0⟩], 2⟩
      = (⟨[⟨1, "a@x.com", "t", "c", 0⟩], 2⟩, .failure 404 "Note not found") ∧
    delete_note 1 "b@x.com" ⟨[⟨1, "a@x.com", "t", "c", 0⟩], 2⟩
      = (⟨[⟨1, "a@x.com", "t", "c", 0⟩], 2⟩, .failure 404 "Note not found") :=
  update_delete_notfound_conflation 1 "b@x.com" ⟨"t2", "c2"⟩
    ⟨[⟨1, "a@x.com", "t", "c", 0⟩], 2⟩ (by decide)

/-- `updateFirst` on a list that starts with non-matching rows, then the
matched row: only that row is rewritten. -/
theorem updateFirst_eq_of_split (p : NoteRec → Bool) (f : NoteRec → NoteRec)
    (pre : List NoteRec) (n : NoteRec) (post : List NoteRec)
    (hpre : ∀ a ∈ pre, p a = false) (hn : p n = true) :
    updateFirst p f (pre ++ n :: post) = pre ++ f n :: post := by
  induction pre with
  | nil => simp [updateFirst, hn]
  | cons a as ih =>
      have ha : p a = false := hpre a (List.mem_cons_self a as)
      simp only [List.cons_append, updateFirst, ha, Bool.false_eq_true, if_false,
        List.cons.injEq, true_and]
      exact ih (fun b hb => hpre b (List.mem_cons_of_mem a hb))

/-- **C8**: a successful owner update rewrites only the matched note's title
and content: its id, owner and creation time are kept, the store splits as
`pre ++ [matched] ++ post` before and `pre ++ [updated] ++ post` after, so
every other row (of any owner) and the id counter are unchanged. -/
theorem update_note_frame (note_id : Nat) (payload : NoteCreate) (owner : String)
    (db : NotesDB) (n : NoteRec)
    (hfound : db.rows.find? (ownedNoteFilter note_id owner) = some n) :
    n.id = note_id ∧ n.owner_email = owner ∧
    ∃ pre post,
      db.rows = pre ++ n :: post ∧
      (update_note note_id payload owner db).1.rows
        = pre ++ { n with title := payload.title, content := payload.content } :: post ∧
      (update_note note_id payload owner db).1.nextId = db.nextId ∧
      (update_note note_id payload owner db).2
        = .success 200 { n with title := payload.title, content := payload.content } := by
  obtain ⟨hp, pre, post, hsplit, hpre⟩ := List.find?_eq_some.mp hfound
  have hid : n.id = note_id ∧ n.owner_email = owner := by
    simpa [ownedNoteFilter] using hp
  have hpre' : ∀ a ∈ pre, ownedNoteFilter note_id owner a = false := by
    intro a ha
    simpa using hpre a ha
  refine ⟨hid.1, hid.2, pre, post, hsplit, ?_, ?_, ?_⟩
  · simp only [update_note, hfound]
    rw [hsplit]
    exact updateFirst_eq_of_split _ _ pre n post hpre' hp
  · simp [update_note, hfound]
  · simp [update_note, hfound]

/-- Witness for C8: a store with notes of `b@x.com`, the target note of
`a@x.com`, and another note of `a@x.com`; `a@x.com` updates note 2. -/
theorem update_note_frame_witness :
    (⟨2, "a@x.com", "t", "c", 5⟩ : NoteRec).id = 2 ∧
    (⟨2, "a@x.com", "t", "c", 5⟩ : NoteRec).owner_email = "a@x.com" ∧
    ∃ pre post,
      [⟨1, "b@x.com", "bt", "bc", 0⟩, ⟨2, "a@x.com", "t", "c", 5⟩,
        ⟨3, "a@x.com", "t3", "c3", 6⟩] = pre ++ (⟨2, "a@x.com", "t", "c", 5⟩ : NoteRec) :: post ∧
      (update_note 2 ⟨"t2", "c2"⟩ "a@x.com"
          ⟨[⟨1, "b@x.com", "bt", "bc", 0⟩, ⟨2, "a@x.com", "t", "c", 5⟩,
            ⟨3, "a@x.com", "t3", "c3", 6⟩], 4⟩).1.rows
        = pre ++ (⟨2, "a@x.com", "t2", "c2", 5⟩ : NoteRec) :: post ∧
      (update_note 2 ⟨"t2", "c2"⟩ "a@x.com"
          ⟨[⟨1, "b@x.com", "bt", "bc", 0⟩, ⟨2, "a@x.com", "t", "c", 5⟩,
            ⟨3, "a@x.com", "t3", "c3", 6⟩], 4⟩).1.nextId = 4 ∧
      (update_note 2 ⟨"t2", "c2"⟩ "a@x.com"
          ⟨[⟨1, "b@x.com", "bt", "bc", 0⟩, ⟨2, "a@x.com", "t", "c", 5⟩,
            ⟨3, "a@x.com", "t3", "c3", 6⟩], 4⟩).2
        = .success 200 ⟨2, "a@x.com", "t2", "c2", 5⟩ :=
  update_note_frame 2 ⟨"t2", "c2"⟩ "a@x.com"
    ⟨[⟨1, "b@x.com", "bt", "bc", 0⟩, ⟨2, "a@x.com", "t", "c", 5⟩,
      ⟨3, "a@x.com", "t3", "c3", 6⟩], 4⟩ ⟨2, "a@x.com", "t", "c", 5⟩ (by decide)

/-- **C10**: for every payload (`NoteCreate` has only `title` and `content`,
no owner field), the note persisted by `create_note` is owned by the email of
the user resolved from the bearer token, and is exactly the row appended to
the store: no payload can create a note owned by a different user. -/
theorem create_note_owner_from_token (payload : NoteCreate) (userEmail : String)
    (now : Nat) (db : NotesDB) :
    ((create_note payload userEmail now db).2).owner_email = userEmail ∧
    (create_note payload userEmail now db).1.rows
      = db.rows ++ [(create_note payload userEmail now db).2] :=
  ⟨rfl, rfl⟩

/-- A note content one character longer than the 2000-character column bound. -/
def overlongContent : String :=
  String.mk (List.replicate 2001 'a')

/-- **C9 counterexample**: a creation payload whose content is 2001
characters long — past the 2000-character content column bound — passes the
`NoteCreate` validation (it is not rejected) and is persisted by
`create_note` verbatim, reaching the store untruncated. -/
theorem noteCreate_overlong_not_rejected :
    CONTENT_COLUMN_BOUND < overlongContent.length ∧
    noteCreateValid ⟨"t", overlongContent⟩ = true ∧
    ((create_note ⟨"t", overlongContent⟩ "a@x.com" 0 ⟨[], 1⟩).2).content
      = overlongContent := by
  refine ⟨?_, rfl, rfl⟩
  show CONTENT_COLUMN_BOUND < (List.replicate 2001 'a').length
  rw [List.length_replicate]
  simp [CONTENT_COLUMN_BOUND]

/-- **C9 (amended)**: the `NoteCreate` request body carries no length
validation — every pair of title/content strings is accepted — and
`create_note` persists title and content exactly as received, with no
truncation; the 2000-character content bound exists only as the column type. -/
theorem noteCreate_no_length_validation (payload : NoteCreate) (userEmail : String)
    (now : Nat) (db : NotesDB) :
    noteCreateValid payload = true ∧
    ((create_note payload userEmail now db).2).content = payload.content ∧
    ((create_note payload userEmail now db).2).title = payload.title :=
  ⟨rfl, rfl, rfl⟩

/-- Well-formedness of the notes table under auto-increment insertion: rows
are in strictly increasing id order and every id is below the counter. -/
def NotesDB.WF (db : NotesDB) : Prop :=
  db.rows.Pairwise (fun a b => a.id < b.id) ∧ ∀ n ∈ db.rows, n.id < db.nextId

/-- An empty table is well formed for any counter value. -/
theorem notesWF_empty (k : Nat) : NotesDB.WF ⟨[], k⟩ :=
  ⟨List.Pairwise.nil, by simp⟩

/-- `create_note` preserves table well-formedness: the new row takes the
current counter as id, larger than every stored id. -/
theorem notesWF_create (db : NotesDB) (h : db.WF) (payload : NoteCreate)
    (userEmail : String) (now : Nat) :
    ((create_note payload userEmail now db).1).WF := by
  obtain ⟨hsort, hlt⟩ := h
  constructor
  · apply List.pairwise_append.mpr
    refine ⟨hsort, List.pairwise_singleton _ _, ?_⟩
    intro a ha b hb
    have hb' : b = (⟨db.nextId, userEmail, payload.title, payload.content, now⟩ : NoteRec) := by
      simpa using hb
    rw [hb']
    exact hlt a ha
  · intro n hn
    rcases List.mem_append.mp hn with hmem | hmem
    · exact Nat.lt_succ_of_lt (hlt n hmem)
    · have hn' : n = (⟨db.nextId, userEmail, payload.title, payload.content, now⟩ : NoteRec) := by
        simpa using hmem
      rw [hn']
      exact Nat.lt_succ_self _

/-- Any sequence of creations starting from a well-formed table keeps it
well formed. -/
theorem notesWF_runCreates (reqs : List (String × NoteCreate × Nat))
    (db : NotesDB) (h : db.WF) : (runCreates reqs db).WF := by
  induction reqs generalizing db with
  | nil => exact h
  | cons r rs ih =>
      have hstep : runCreates (r :: rs) db
          = runCreates rs (create_note r.2.1 r.1 r.2.2 db).1 := rfl
      rw [hstep]
      exact ih _ (notesWF_create db h r.2.1 r.1 r.2.2)

/-- **C4**: after any sequence of note creations by arbitrary owners starting
from an empty table, `list_notes owner` contains exactly the stored notes
whose `owner_email` is `owner` — every listed note belongs to `owner`, every
stored note of `owner` is listed — and the listing is strictly descending in
note id. -/
theorem list_notes_exact_and_sorted (owner : String)
    (reqs : List (String × NoteCreate × Nat)) (startId : Nat) :
    (∀ n ∈ list_notes owner (runCreates reqs ⟨[], startId⟩), n.owner_email = owner) ∧
    (∀ n ∈ (runCreates reqs ⟨[], startId⟩).rows,
        n.owner_email = owner → n ∈ list_notes owner (runCreates reqs ⟨[], startId⟩)) ∧
    (list_notes owner (runCreates reqs ⟨[], startId⟩)).Pairwise
      (fun a b => b.id < a.id) := by
  have hwf : (runCreates reqs ⟨[], startId⟩).WF :=
    notesWF_runCreates reqs ⟨[], startId⟩ (notesWF_empty startId)
  refine ⟨?_, ?_, ?_⟩
  · intro n hn
    rw [list_notes, List.mem_mergeSort, List.mem_filter] at hn
    simpa using hn.2
  · intro n hn howner
    rw [list_notes, List.mem_mergeSort, List.mem_filter]
    exact ⟨hn, by simpa using howner⟩
  · have hperm := List.mergeSort_perm
      ((runCreates reqs ⟨[], startId⟩).rows.filter (fun n => n.owner_email = owner))
      (fun a b => b.id ≤ a.id)
    have hle : (list_notes owner (runCreates reqs ⟨[], startId⟩)).Pairwise
        (fun a b => b.id ≤ a.id) := by
      have hs := @List.sorted_mergeSort NoteRec
        (fun a b : NoteRec => decide (b.id ≤ a.id))
        (fun a b c hab hbc => by
          simp only [decide_eq_true_eq] at *
          omega)
        (fun a b => by
          simp only [Bool.or_eq_true, decide_eq_true_eq]
          omega)
        ((runCreates reqs ⟨[], startId⟩).rows.filter (fun n => n.owner_email = owner))
      rw [list_notes]
      exact hs.imp (fun hab => by simpa using hab)
    have hne : (list_notes owner (runCreates reqs ⟨[], startId⟩)).Pairwise
        (fun a b => a.id ≠ b.id) := by
      have h1 : (runCreates reqs ⟨[], startId⟩).rows.Pairwise
          (fun a b => a.id ≠ b.id) :=
        hwf.1.imp (fun hab => Nat.ne_of_lt hab)
      have h2 := h1.filter (fun n => decide (n.owner_email = owner))
      rw [list_notes]
      exact (List.Perm.pairwise_iff (fun hxy => Ne.symm hxy) hperm).mpr h2
    exact (hle.and hne).imp (fun hab => Nat.lt_of_le_of_ne hab.1 (Ne.symm hab.2))

/-- Witness for C4: three creations interleaving owners `a@x.com` and
`b@x.com` starting from an empty table with counter 1. -/
theorem list_notes_exact_and_sorted_witness :
    (∀ n ∈ list_notes "a@x.com"
        (runCreates [("a@x.com", ⟨"t1", "c1"⟩, 0), ("b@x.com", ⟨"t2", "c2"⟩, 1),
          ("a@x.com", ⟨"t3", "c3"⟩, 2)] ⟨[], 1⟩), n.owner_email = "a@x.com") ∧
    (∀ n ∈ (runCreates [("a@x.com", ⟨"t1", "c1"⟩, 0), ("b@x.com", ⟨"t2", "c2"⟩, 1),
          ("a@x.com", ⟨"t3", "c3"⟩, 2)] ⟨[], 1⟩).rows,
        n.owner_email = "a@x.com" → n ∈ list_notes "a@x.com"
          (runCreates [("a@x.com", ⟨"t1", "c1"⟩, 0), ("b@x.com", ⟨"t2", "c2"⟩, 1),
            ("a@x.com", ⟨"t3", "c3"⟩, 2)] ⟨[], 1⟩)) ∧
    (list_notes "a@x.com"
        (runCreates [("a@x.com", ⟨"t1", "c1"⟩, 0), ("b@x.com", ⟨"t2", "c2"⟩, 1),
          ("a@x.com", ⟨"t3", "c3"⟩, 2)] ⟨[], 1⟩)).Pairwise
      (fun a b => b.id < a.id) :=
  list_notes_exact_and_sorted "a@x.com"
    [("a@x.com", ⟨"t1", "c1"⟩, 0), ("b@x.com", ⟨"t2", "c2"⟩, 1),
      ("a@x.com", ⟨"t3", "c3"⟩, 2)] 1
